import Mathlib

/-!
Verification of the giveaway lifecycle engine in
`src/giveaways/models/giveaway.py` (classes `GiveawayMeta`, `Giveaway`,
`EndedGiveaway`).

Shallow embedding conventions:
- `datetime` instants are embedded as `Int` epoch seconds; `datetime.timestamp`
  and `datetime.fromtimestamp` are the identity on this embedding.
- Discord ids (message, guild, channel, member, role) are `Int`.
- A Python `set` of ids is embedded as a duplicate-free `List Int`; `set.add`
  keeps the list duplicate-free.
- Keyword arguments distinguish "key absent" from "key present with value
  `None`" (`KwVal`), because `dict.get(k, default)` returns the default only
  when the key is absent.
- `random.choice(pool)` is embedded by consuming one index from an explicit
  stream of natural numbers (`picks`), taken modulo the pool length; the
  stream is universally quantified in the theorems.
- Exceptions are the `Except PyExc` monad; awaited external calls appear as
  explicit parameters holding their results.
-/

namespace CrayGiveaways

/-- Exceptions that the embedded code can raise: `GiveawayError`,
`GiveawayNotStarted`, `GiveawayAlreadyEnded` from `..exceptions`, plus the
built-in Python exceptions the code can actually hit (`AttributeError` from a
missing attribute, `TypeError` from using `None` where a value is required,
`IndexError` from `random.choice` on an empty sequence). -/
inductive PyExc where
  | giveawayError (msg : String)
  | giveawayNotStarted (msg : String)
  | giveawayAlreadyEnded (msg : String)
  | attributeError (attr : String)
  | typeError
  | indexError
  deriving DecidableEq, Repr

/-- A keyword-argument slot: absent, present with Python `None`, or present
with a value. -/
inductive KwVal (α : Type) where
  | absent
  | pyNone
  | val (a : α)
  deriving DecidableEq, Repr

/-- `kwargs.get(key, default)`: the default is used only when the key is
absent; a key present with `None` yields `None`. -/
def kwGet {α : Type} : KwVal α → Option α → Option α
  | .absent, d => d
  | .pyNone, _ => none
  | .val a, _ => some a

/-- Pass a Python value (possibly `None`) as an always-present kwarg. -/
def toKw {α : Type} : Option α → KwVal α
  | none => .pyNone
  | some a => .val a

/-- `if not (x := kwargs.get(key)): raise ...` — fails when the key is absent,
`None`, or holds a falsy value. -/
def checkOne {α : Type} (truthy : α → Bool) : KwVal α → Option α
  | .absent => none
  | .pyNone => none
  | .val a => if truthy a then some a else none

/-- Modelled from the spec: `Requirements` (from `models/requirements.py`,
which is outside `src/`). The spec lists the rule kinds: bypass, blacklist
and required role lists, `min_external_score` (`amari_level`),
`min_weekly_score` (`amari_weekly`) and `min_message_count` (`messages`),
with a `null` state meaning no rules configured. The spec states serialized
records are round-trip stable, so a `Requirements` object is identified with
its own serialized form and `Requirements.json` is the identity. -/
structure Requirements where
  null : Bool := true
  bypass : List Int := []
  blacklist : List Int := []
  required : List Int := []
  amari_level : Option Int := none
  amari_weekly : Option Int := none
  messages : Option Int := none
  deriving DecidableEq, Repr

/-- Modelled from the spec: `Requirements.from_json` (outside `src/`); an
empty (or `None`) serialized mapping yields the null rule set. -/
def reqFromJson (j : Option Requirements) : Requirements :=
  j.getD {}

/-- Modelled from the spec: `GiveawayFlags` (from `models/flags.py`, outside
`src/`), restricted to the fields the embedded code reads: `no_donor`,
`donor` (a member id once resolved against the guild), `no_multiple_winners`,
`no_multi` and `message_count`. As with `Requirements`, the object is
identified with its serialized form. -/
structure GiveawayFlags where
  no_donor : Bool := false
  donor : Option Int := none
  no_multiple_winners : Bool := false
  no_multi : Bool := false
  message_count : Int := 0
  deriving DecidableEq, Repr

/-- Modelled from the spec: `GiveawayFlags.from_json` (outside `src/`); an
empty (or `None`) serialized mapping yields default flags. The real function
also receives the guild to resolve the donor id; donor ids are kept as ids
here. -/
def flagsFromJson (j : Option GiveawayFlags) : GiveawayFlags :=
  j.getD {}

/-- The state attributes set by `GiveawayMeta.__init__`. The transient
`bot` handle is not part of the record (it is not serialized and is
re-injected on reconstruction). Fields that Python may hold as `None` are
`Option`-typed. `entrants` embeds the Python `set[int]`; `winners` is the
ordered winner id list. -/
structure GMeta where
  message_id : Int
  channel_id : Int
  guild_id : Int
  prize : Option String
  requirements : Option Requirements
  flags : Option GiveawayFlags
  emoji : Option String
  amount_of_winners : Option Int
  entrants : List Int
  winners : List Int
  host : Option Int
  starts_at : Option Int
  ends_at : Int
  deriving DecidableEq, Repr

/-- The keyword-argument mapping consumed by `GiveawayMeta.check_kwargs` and
`GiveawayMeta.__init__`. The type of the `ends_at` slot is a parameter
because the same `check_kwargs` runs both on raw serialized mappings (where
`ends_at` is an epoch number, falsy at 0) and on constructor kwargs (where
`ends_at` is a `datetime`, always truthy). -/
structure GKwargs (ε : Type) where
  message_id : KwVal Int := .absent
  guild_id : KwVal Int := .absent
  channel_id : KwVal Int := .absent
  ends_at : KwVal ε := .absent
  bot : KwVal Unit := .absent
  prize : KwVal String := .absent
  requirements : KwVal Requirements := .absent
  flags : KwVal GiveawayFlags := .absent
  emoji : KwVal String := .absent
  amount_of_winners : KwVal Int := .absent
  entrants : KwVal (List Int) := .absent
  winners : KwVal (List Int) := .absent
  host : KwVal Int := .absent
  starts_at : KwVal Int := .absent

/-- `GiveawayMeta.check_kwargs`: requires truthy `message_id`, `guild_id`,
`channel_id`, `ends_at` and `bot`, in that order, raising `GiveawayError`
with the corresponding message at the first failure. An id of 0 is falsy in
Python and also fails. -/
def check_kwargs {ε : Type} (etruthy : ε → Bool) (kw : GKwargs ε) :
    Except PyExc (Int × Int × Int × ε) :=
  match checkOne (fun n => n ≠ 0) kw.message_id with
  | none => .error (.giveawayError "No message ID provided.")
  | some mid =>
  match checkOne (fun n => n ≠ 0) kw.guild_id with
  | none => .error (.giveawayError "No guild ID provided.")
  | some gid =>
  match checkOne (fun n => n ≠ 0) kw.channel_id with
  | none => .error (.giveawayError "No channel ID provided.")
  | some cid =>
  match checkOne etruthy kw.ends_at with
  | none => .error (.giveawayError "No ends_at provided for the giveaway.")
  | some e =>
  match checkOne (fun _ => true) kw.bot with
  | none => .error (.giveawayError "No bot object provided.")
  | some _ => .ok (mid, gid, cid, e)

/-- Truthiness of a `datetime`: always truthy in Python. -/
def dtTruthy : Int → Bool := fun _ => true

/-- `GiveawayMeta.__init__`: runs `check_kwargs`, then fills each attribute
from `kwargs.get` with the source defaults. `now` is the clock value at the
moment of construction (`datetime.now(tz=timezone.utc)` used as the
`starts_at` default). `entrants` is built by `set(kwargs.get("entrants", {})
or {})`, hence the dedup; `winners` is `kwargs.get("winners") or []`. -/
def metaInit {ε : Type} (etruthy : ε → Bool) (toDT : ε → Int) (now : Int)
    (kw : GKwargs ε) : Except PyExc GMeta :=
  match check_kwargs etruthy kw with
  | .error err => .error err
  | .ok (mid, gid, cid, e) => .ok {
      message_id := mid
      channel_id := cid
      guild_id := gid
      prize := kwGet kw.prize (some "Giveaway prize")
      requirements := kwGet kw.requirements none
      flags := kwGet kw.flags none
      emoji := kwGet kw.emoji (some ":tada:")
      amount_of_winners := kwGet kw.amount_of_winners (some 1)
      entrants := ((kwGet kw.entrants (some [])).getD []).dedup
      winners := (kwGet kw.winners none).getD []
      host := kwGet kw.host none
      starts_at := kwGet kw.starts_at (some now)
      ends_at := toDT e }

/-- `GiveawayMeta.json`: the serializable mapping. `requirements` serializes
to `self.requirements.json if self.requirements else {}` (identified with
the object itself, see `Requirements`), likewise `flags`; `entrants` becomes
`list(self._entrants)`; the timestamps become epoch numbers. If `starts_at`
is `None`, `self.starts_at.timestamp()` raises `AttributeError`. The `bot`
handle is not serialized. -/
def GMeta.json (st : GMeta) : Except PyExc (GKwargs Int) :=
  match st.starts_at with
  | none => .error (.attributeError "timestamp")
  | some s => .ok {
      message_id := .val st.message_id
      channel_id := .val st.channel_id
      guild_id := .val st.guild_id
      prize := toKw st.prize
      amount_of_winners := toKw st.amount_of_winners
      requirements := .val (match st.requirements with | some r => r | none => {})
      flags := .val (match st.flags with | some f => f | none => {})
      emoji := toKw st.emoji
      entrants := .val st.entrants
      winners := .val st.winners
      host := toKw st.host
      ends_at := .val st.ends_at
      starts_at := .val s
      bot := .absent }

/-- `GiveawayMeta.from_json`: first `check_kwargs` on the raw mapping (where
an `ends_at` epoch number of 0 is falsy and fails), then the constructor is
called with every key present, `ends_at`/`starts_at` converted through
`datetime.fromtimestamp` (identity here; `fromtimestamp(None)` raises
`TypeError` when the mapping has no `starts_at`). -/
def from_json (now : Int) (j : GKwargs Int) : Except PyExc GMeta :=
  match check_kwargs (fun t => t ≠ 0) j with
  | .error err => .error err
  | .ok (mid, gid, cid, e) =>
  match kwGet j.starts_at none with
  | none => .error .typeError
  | some s =>
    metaInit dtTruthy id now {
      message_id := .val mid
      channel_id := .val cid
      guild_id := .val gid
      bot := .val ()
      prize := toKw (kwGet j.prize (some "Giveaway prize"))
      amount_of_winners := toKw (kwGet j.amount_of_winners (some 1))
      requirements := .val (reqFromJson (kwGet j.requirements (some {})))
      flags := .val (flagsFromJson (kwGet j.flags (some {})))
      emoji := toKw (kwGet j.emoji (some ":tada:"))
      entrants := toKw (kwGet j.entrants (some []))
      winners := toKw (kwGet j.winners (some []))
      host := toKw (kwGet j.host none)
      ends_at := .val e
      starts_at := .val s }

/-- The named parameters of `Giveaway.__init__` (all optional, Python default
`None`). `starts_at` is special: its Python default is
`datetime.now(tz=timezone.utc)` evaluated once when the class statement runs,
so an omitted `starts_at` (`KwVal.absent`) becomes the import-time instant,
not the construction-time one. -/
structure GiveawayArgs where
  bot : Option Unit := none
  message_id : Option Int := none
  channel_id : Option Int := none
  guild_id : Option Int := none
  requirements : Option Requirements := none
  flags : Option GiveawayFlags := none
  prize : Option String := none
  host : Option Int := none
  amount_of_winners : Option Int := none
  emoji : Option String := none
  starts_at : KwVal Int := .absent
  ends_at : Option Int := none
  entrants : Option (List Int) := none
  winners : Option (List Int) := none

/-- `Giveaway.__init__`: forwards every parameter to `GiveawayMeta.__init__`
as a present key (so omitted parameters arrive as `None`, and the
`kwargs.get` defaults of the superclass do not apply), then evaluates
`if self.flags.message_count or self.requirements.messages`, which raises
`AttributeError` when `flags` (or, with a falsy `message_count`,
`requirements`) is `None`. The background waiter spawned for a future
`starts_at` is an external side effect with no record mutation and is not
modelled. `importTime` is the module-import clock used for the `starts_at`
parameter default; `now` is the construction-time clock. -/
def giveawayInit (importTime now : Int) (p : GiveawayArgs) :
    Except PyExc GMeta :=
  match metaInit dtTruthy id now {
      bot := toKw p.bot
      message_id := toKw p.message_id
      channel_id := toKw p.channel_id
      guild_id := toKw p.guild_id
      prize := toKw p.prize
      requirements := toKw p.requirements
      flags := toKw p.flags
      emoji := toKw p.emoji
      entrants := toKw p.entrants
      winners := toKw p.winners
      host := toKw p.host
      ends_at := toKw p.ends_at
      starts_at := match p.starts_at with
        | .absent => .val importTime
        | .pyNone => .pyNone
        | .val t => .val t
      amount_of_winners := toKw p.amount_of_winners } with
  | .error e => .error e
  | .ok st =>
    match st.flags with
    | none => .error (.attributeError "message_count")
    | some f =>
      if f.message_count ≠ 0 then .ok st
      else match st.requirements with
        | none => .error (.attributeError "messages")
        | some _ => .ok st

/-- `datetime.now(tz=utc) > self.starts_at` (the `started` property);
comparing against a `None` `starts_at` raises `TypeError`. -/
def startedB (st : GMeta) (now : Int) : Except PyExc Bool :=
  match st.starts_at with
  | none => .error .typeError
  | some s => .ok (decide (now > s))

/-- `datetime.now(tz=utc) > self.ends_at` (the `ended` property). -/
def endedB (st : GMeta) (now : Int) : Bool :=
  decide (now > st.ends_at)

/-- A guild member as the embedded code sees it: an id and the held roles. -/
structure Member where
  id : Int
  roles : List Int
  deriving DecidableEq, Repr

/-- An amari (reputation service) user payload: `user.get("level", 0)` /
`user.get("weeklyExp", 0)` read these optional fields with default 0. -/
structure AmariUser where
  level : Option Int := none
  weeklyExp : Option Int := none
  deriving DecidableEq, Repr

/-- `self.flags.donor or self.host`: the donor member if set, else the host
member resolved from the guild (either may be `None`). -/
def donorTarget (flags : GiveawayFlags) (host : Option Int) : Option Int :=
  flags.donor.orElse (fun _ => host)

/-- The `messages` branch of `Giveaway.verify_entry`: skipped when the
threshold is missing or falsy; otherwise compares the externally supplied
per-member counter (`self._message_cache.setdefault(member.id, 0)`) against
it. Rejection strings are abbreviated stand-ins for the f-strings of the
source, whose exact text no claim depends on. -/
def messagesCheck (req : Requirements) (msgCount : Int) :
    Except PyExc (Bool × String) :=
  match req.messages with
  | none => .ok (true, "")
  | some mv =>
    if mv = 0 then .ok (true, "")
    else if msgCount < mv then .ok (false, "too few messages since the giveaway started")
    else .ok (true, "")

/-- The `amari_weekly` branch of `Giveaway.verify_entry`: `user` starts as
`{}` and the awaited lookup runs under `contextlib.suppress(Exception)`, so
a failed call leaves `user = {}` and `weeklyExp` reads as 0. -/
def amariWeeklyCheck (req : Requirements)
    (amariWeeklyCall : Except PyExc (Option AmariUser)) (msgCount : Int) :
    Except PyExc (Bool × String) :=
  match req.amari_weekly with
  | none => messagesCheck req msgCount
  | some wv =>
    if wv = 0 then messagesCheck req msgCount
    else
      let user : AmariUser := match amariWeeklyCall with
        | .error _ => {}
        | .ok u => u.getD {}
      if user.weeklyExp.getD 0 < wv then .ok (false, "weekly amari xp below requirement")
      else messagesCheck req msgCount

/-- The `amari_level` branch of `Giveaway.verify_entry`: the awaited lookup
sits in a `try` block whose only handler is `except: raise`, so a failure
propagates out of the evaluation. -/
def amariLevelCheck (req : Requirements)
    (amariLevelCall amariWeeklyCall : Except PyExc (Option AmariUser))
    (msgCount : Int) : Except PyExc (Bool × String) :=
  match req.amari_level with
  | none => amariWeeklyCheck req amariWeeklyCall msgCount
  | some lv =>
    if lv = 0 then amariWeeklyCheck req amariWeeklyCall msgCount
    else match amariLevelCall with
      | .error e => .error e
      | .ok u =>
        if (u.getD {}).level.getD 0 < lv then .ok (false, "amari level below requirement")
        else amariWeeklyCheck req amariWeeklyCall msgCount

/-- The requirement portion of `Giveaway.verify_entry`: a null rule set
allows; a held bypass role short-circuits success; then the role-dict items
are walked in the order bypass (a no-op inside the loop), blacklist,
required, amari_level, amari_weekly, messages. The item order is modelled
from the spec because `Requirements.as_role_dict` lives outside `src/`.
Note the source rejects on the first *missing* required role (all required
roles must be held). -/
def verifyRequirements (req : Requirements)
    (amariLevelCall amariWeeklyCall : Except PyExc (Option AmariUser))
    (msgCount : Int) (memberRoles : List Int) : Except PyExc (Bool × String) :=
  if req.null then .ok (true, "")
  else if !req.bypass.isEmpty && req.bypass.any (memberRoles.contains ·) then
    .ok (true, "")
  else match req.blacklist.find? (memberRoles.contains ·) with
  | some _ => .ok (false, "blacklisted role held")
  | none =>
  match req.required.find? (fun r => !memberRoles.contains r) with
  | some _ => .ok (false, "required role missing")
  | none => amariLevelCheck req amariLevelCall amariWeeklyCall msgCount

/-- `Giveaway.verify_entry`: the flag-driven donor self-entry rejection runs
before the Requirement Evaluator; `(self.flags.donor or self.host).id`
raises `AttributeError` when both are `None`. `flags` and `requirements` are
taken as actual objects: a `Giveaway` whose construction completed always
has both or crashed earlier (see `giveawayInit`). -/
def verify_entry (flags : GiveawayFlags) (host : Option Int)
    (req : Requirements)
    (amariLevelCall amariWeeklyCall : Except PyExc (Option AmariUser))
    (msgCount : Int) (m : Member) : Except PyExc (Bool × String) :=
  if flags.no_donor then
    match donorTarget flags host with
    | none => .error (.attributeError "id")
    | some d =>
      if m.id = d then .ok (false, "no-donor flag restricts the donor from joining")
      else verifyRequirements req amariLevelCall amariWeeklyCall msgCount m.roles
  else verifyRequirements req amariLevelCall amariWeeklyCall msgCount m.roles

/-- `set.add`: insert an id into the entrant set, keeping the list model
duplicate-free. -/
def setAdd (s : List Int) (x : Int) : List Int :=
  if x ∈ s then s else s ++ [x]

/-- The `entrants` *property*: `[self.guild.get_member(x) for x in
self._entrants]`, a list of resolved `Member` objects (or `None` for ids the
guild cannot resolve), not a list of ids. -/
def entrantsProperty (guild : Int → Option Member) (st : GMeta) :
    List (Option Member) :=
  st.entrants.map guild

/-- `member.id in self.entrants` as Python evaluates it: the `in` operator
compares the int id with each element of the resolved member-object list.
`int == Member` is `False` (discord.py user equality requires the other
operand to be a user object) and `int == None` is `False`, so no element
ever compares equal. -/
def pyIdEqListElem (_i : Int) (_x : Option Member) : Bool :=
  false

/-- The three possible results of `Giveaway.add_entrant`: the rejection
statement string, `False` (the dead already-entered branch), `True`. -/
inductive AddEntrantResult where
  | statement (s : String)
  | retFalse
  | retTrue
  deriving DecidableEq, Repr

/-- `Giveaway.add_entrant`: awaits `verify_entry` (result passed in as
`vres`); a rejection returns the statement without touching the set; then
the duplicate check `member.id in self.entrants` runs against the resolved
member-object property (see `pyIdEqListElem`); otherwise the id is added to
`self._entrants`. Returns the possibly-updated state and the result. -/
def add_entrant (guild : Int → Option Member) (st : GMeta)
    (vres : Except PyExc (Bool × String)) (m : Member) :
    GMeta × Except PyExc AddEntrantResult :=
  match vres with
  | .error e => (st, .error e)
  | .ok (false, stmt) => (st, .ok (.statement stmt))
  | .ok (true, _) =>
    if (entrantsProperty guild st).any (pyIdEqListElem m.id) then
      (st, .ok .retFalse)
    else
      ({st with entrants := setAdd st.entrants m.id}, .ok (.retTrue))

/-- The draw loop of `Giveaway.pick_winners`: exactly `fuel =
amount_of_winners` iterations. Each iteration consumes one index from the
pick stream (`random.choice`), re-validates the draw through `verify_entry`
(a raised exception propagates), skips a rejected draw without retrying,
and, when `flags.no_multiple_winners` is set, also skips a draw already in
the accumulator (`flags` is only dereferenced after a successful
validation, matching the source order; a `None` flags object would raise
`AttributeError` there). Returns the winner list and the unconsumed picks. -/
def pickLoop (verify : Int → Except PyExc Bool)
    (flags : Option GiveawayFlags) (pool : List Int) :
    Nat → List Nat → List Int → Except PyExc (List Int × List Nat)
  | 0, picks, acc => .ok (acc, picks)
  | n + 1, picks, acc =>
    let w := pool.getD (picks.headD 0 % pool.length) 0
    match verify w with
    | .error e => .error e
    | .ok vr =>
      if !vr then pickLoop verify flags pool n picks.tail acc
      else match flags with
        | none => .error (.attributeError "no_multiple_winners")
        | some f =>
          if f.no_multiple_winners && acc.contains w then
            pickLoop verify flags pool n picks.tail acc
          else pickLoop verify flags pool n picks.tail (acc ++ [w])

/-- `Giveaway.pick_winners`: the candidate pool is `entrants or
self.entrants` (the argument when truthy, else the record's own entrant
set; pool elements are member ids). An empty effective pool yields the
empty list without touching `amount_of_winners`; otherwise
`range(self.amount_of_winners)` drives `pickLoop` (a negative amount makes
the range empty; a `None` amount would raise `TypeError`). `verify` stands
for the awaited `self.verify_entry` truth value on each drawn member. -/
def pick_winners (st : GMeta) (verify : Int → Except PyExc Bool)
    (arg : Option (List Int)) (picks : List Nat) :
    Except PyExc (List Int × List Nat) :=
  let pool := match arg with
    | none => st.entrants
    | some [] => st.entrants
    | some l => l
  if pool.isEmpty then .ok ([], picks)
  else match st.amount_of_winners with
    | none => .error .typeError
    | some a => pickLoop verify st.flags pool a.toNat picks []

/-- External collaborators of `Giveaway.start`: whether the channel
resolves, and the id of the freshly published message. -/
structure StartEnv where
  channelFound : Bool
  newMessageId : Int

/-- `Giveaway.start`: when `self.ended`, the source builds
`GiveawayAlreadyEnded("The Giveaway ({}) has already ended at
{}".format(self.message_id, self.time_to_end))`; evaluating
`self.time_to_end` raises `AttributeError` first, because no `time_to_end`
attribute or property exists anywhere on `GiveawayMeta` / `Giveaway`, so
`AttributeError` — not `GiveawayAlreadyEnded` — propagates, with the state
untouched. Otherwise the event is republished (embed construction, cache
registration and flag announcements are external side effects) and
`self.message_id` is replaced by the new message id. -/
def start (st : GMeta) (now : Int) (env : StartEnv) :
    GMeta × Except PyExc Unit :=
  if endedB st now then
    (st, .error (.attributeError "time_to_end"))
  else if !env.channelFound then
    (st, .error (.giveawayError "The channel for this giveaway could not be found."))
  else
    ({st with message_id := env.newMessageId}, .ok ())

/-- External collaborators of `Giveaway.end`: channel and message
resolution, the shuffled and (unless `no_multi`) multiplier-expanded
entrant pool, the per-draw validation verdicts and the pick stream. -/
structure EndEnv where
  channelFound : Bool
  msgFound : Bool
  shuffledExpanded : List Int
  verify : Int → Except PyExc Bool
  picks : List Nat

/-- The ended snapshot (`EndedGiveaway`): the metadata plus the end
reason. -/
structure EndedMeta where
  meta : GMeta
  reason : String
  deriving DecidableEq, Repr

/-- `Giveaway.end`: the `started` precondition raises `GiveawayNotStarted`
(with the message id interpolated) before any effect; then channel
resolution can raise `GiveawayError`; an unresolvable published message
ends the event immediately with the deleted-message reason and winners
untouched; otherwise the shuffled expanded pool feeds `pick_winners`,
`self._winners` is set to the draw result and the snapshot carries the
given reason (defaulting to the success message, as
`EndedGiveaway.from_giveaway` does). Announcement editing and DM delivery
are external side effects without record mutation. -/
def endG (st : GMeta) (now : Int) (reason : Option String) (env : EndEnv) :
    GMeta × Except PyExc EndedMeta :=
  match startedB st now with
  | .error e => (st, .error e)
  | .ok false =>
    (st, .error (.giveawayNotStarted
      ("The Giveaway (" ++ toString st.message_id ++ ") has not started yet")))
  | .ok true =>
    if !env.channelFound then
      (st, .error (.giveawayError "The channel for this giveaway could not be found."))
    else if !env.msgFound then
      (st, .ok ⟨st, "The giveaway message was either deleted or bot had no `read message/history` permissions."⟩)
    else
      match pick_winners st env.verify (some env.shuffledExpanded) env.picks with
      | .error e => (st, .error e)
      | .ok (ws, _) =>
        let st' := {st with winners := ws}
        (st', .ok ⟨st', reason.getD "Giveaway ended successfully."⟩)

/-- The draw loop of `EndedGiveaway.reroll`: `for _ in self.entrants` bounds
the attempts by the size of the original entrant set. `random.choice` on an
empty pool raises `IndexError`; a draw failing re-validation is removed
from the working pool (`entrants.remove(w)`, first occurrence) and not
counted; a successful draw is appended and the loop breaks as soon as
`count` winners have accumulated. -/
def rerollLoop (verify : Int → Except PyExc Bool) (count : Nat) :
    Nat → List Int → List Nat → List Int → Except PyExc (List Int)
  | 0, _, _, acc => .ok acc
  | fuel + 1, pool, picks, acc =>
    if pool.isEmpty then .error .indexError
    else
      let w := pool.getD (picks.headD 0 % pool.length) 0
      match verify w with
      | .error e => .error e
      | .ok vr =>
        if !vr then rerollLoop verify count fuel (pool.erase w) picks.tail acc
        else
          let acc' := acc ++ [w]
          if acc'.length = count then .ok acc'
          else rerollLoop verify count fuel pool picks.tail acc'

/-- External collaborators of `EndedGiveaway.reroll`: message resolution,
the multiplier expansion `apply_multi`, the per-draw validation verdicts
and the pick stream. -/
structure RerollEnv where
  msgFound : Bool
  expand : List Int → List Int
  verify : Int → Except PyExc Bool
  picks : List Nat

/-- The observable outcome of `EndedGiveaway.reroll` (which messages were
sent; the method itself returns `None`). -/
inductive RerollMsg where
  | noMessage
  | notEnough
  | notEnoughQualified
  | announced (winners : List Int)
  deriving DecidableEq, Repr

/-- `EndedGiveaway.reroll`: an unresolvable message reports and returns
before anything else; `winners = winners or 1` turns a missing or falsy
count into 1; the entrant pool is re-expanded through the external
multiplier and, when empty, the not-enough reply is sent and the method
returns — in both early cases every field of the record, `winners`
included, is untouched. Only on the drawing path is `self._winners`
reassigned, to the accumulated draw result (possibly empty, announced with
the not-enough-qualified reply). -/
def reroll (st : GMeta) (env : RerollEnv) (count? : Option Int) :
    GMeta × Except PyExc RerollMsg :=
  if !env.msgFound then (st, .ok .noMessage)
  else
    let count : Int := match count? with
      | none => 1
      | some c => if c = 0 then 1 else c
    let pool := env.expand st.entrants
    if pool.isEmpty then (st, .ok .notEnough)
    else
      match rerollLoop env.verify count.toNat st.entrants.length pool env.picks [] with
      | .error e => (st, .error e)
      | .ok ws =>
        ({st with winners := ws},
         .ok (if ws.isEmpty then .notEnoughQualified else .announced ws))

/-! ## Helper lemmas -/

theorem kwGet_toKw {α : Type} (o : Option α) (d : Option α) :
    kwGet (toKw o) d = o := by
  cases o <;> rfl

theorem kwGet_val {α : Type} (a : α) (d : Option α) :
    kwGet (.val a) d = some a := rfl

theorem getD_mod_mem {l : List Int} (h : l ≠ []) (i : Nat) (d : Int) :
    l.getD (i % l.length) d ∈ l := by
  have hlen : 0 < l.length := List.length_pos.mpr h
  have hik : i % l.length < l.length := Nat.mod_lt _ hlen
  rw [List.getD_eq_getElem l d hik]
  exact List.getElem_mem hik

theorem drop_tail_succ {α : Type} (picks : List α) (n : Nat) :
    picks.tail.drop n = picks.drop (n + 1) := by
  rw [← List.drop_one, List.drop_drop, Nat.add_comm]

theorem pickLoop_len_drop (v : Int → Except PyExc Bool)
    (fl : Option GiveawayFlags) (pool : List Int) :
    ∀ (n : Nat) (picks : List Nat) (acc ws : List Int) (rest : List Nat),
      pickLoop v fl pool n picks acc = .ok (ws, rest) →
      ws.length ≤ acc.length + n ∧ rest = picks.drop n := by
  intro n
  induction n with
  | zero =>
    intro picks acc ws rest h
    simp only [pickLoop, Except.ok.injEq, Prod.mk.injEq] at h
    obtain ⟨h1, h2⟩ := h
    subst h1; subst h2
    simp
  | succ n ih =>
    intro picks acc ws rest h
    rw [pickLoop.eq_def] at h
    simp only at h
    cases hv : v (pool.getD (picks.headD 0 % pool.length) 0) with
    | error e => rw [hv] at h; simp at h
    | ok vr =>
      rw [hv] at h
      cases vr with
      | false =>
        simp only [Bool.not_false, if_true] at h
        obtain ⟨h1, h2⟩ := ih picks.tail acc ws rest h
        refine ⟨by omega, ?_⟩
        rw [h2, drop_tail_succ]
      | true =>
        simp only [Bool.not_true, if_false] at h
        cases fl with
        | none => simp at h
        | some f =>
          simp only at h
          by_cases hc : (f.no_multiple_winners && acc.contains
              (pool.getD (picks.headD 0 % pool.length) 0)) = true
          · rw [if_pos hc] at h
            obtain ⟨h1, h2⟩ := ih picks.tail acc ws rest h
            refine ⟨by omega, ?_⟩
            rw [h2, drop_tail_succ]
          · rw [if_neg hc] at h
            obtain ⟨h1, h2⟩ := ih picks.tail _ ws rest h
            rw [List.length_append, List.length_singleton] at h1
            refine ⟨by omega, ?_⟩
            rw [h2, drop_tail_succ]

theorem pickLoop_all_ok (v : Int → Except PyExc Bool) (f : GiveawayFlags)
    (pool : List Int) (hpool : pool ≠ [])
    (hall : ∀ x ∈ pool, v x = .ok true)
    (hnm : f.no_multiple_winners = false) :
    ∀ (n : Nat) (picks : List Nat) (acc : List Int),
      ∃ ws, pickLoop v (some f) pool n picks acc = .ok (ws, picks.drop n) ∧
        ws.length = acc.length + n := by
  intro n
  induction n with
  | zero =>
    intro picks acc
    exact ⟨acc, by simp [pickLoop], by simp⟩
  | succ n ih =>
    intro picks acc
    have hw := getD_mod_mem hpool (picks.headD 0) 0
    rw [pickLoop, hall _ hw]
    simp only [Bool.not_true, if_false, hnm, Bool.false_and, Bool.and_eq_true,
      Bool.false_eq_true, false_and, if_false]
    obtain ⟨ws, h1, h2⟩ := ih picks.tail (acc ++ [pool.getD (picks.headD 0 % pool.length) 0])
    refine ⟨ws, ?_, ?_⟩
    · rw [h1, drop_tail_succ]
    · rw [h2, List.length_append, List.length_singleton]
      omega

theorem pickLoop_nodup (v : Int → Except PyExc Bool) (f : GiveawayFlags)
    (pool : List Int) (hnm : f.no_multiple_winners = true) :
    ∀ (n : Nat) (picks : List Nat) (acc ws : List Int) (rest : List Nat),
      acc.Nodup → pickLoop v (some f) pool n picks acc = .ok (ws, rest) →
      ws.Nodup := by
  intro n
  induction n with
  | zero =>
    intro picks acc ws rest hnd h
    simp only [pickLoop, Except.ok.injEq, Prod.mk.injEq] at h
    obtain ⟨h1, _⟩ := h
    exact h1 ▸ hnd
  | succ n ih =>
    intro picks acc ws rest hnd h
    rw [pickLoop] at h
    cases hv : v (pool.getD (picks.headD 0 % pool.length) 0) with
    | error e => rw [hv] at h; simp at h
    | ok vr =>
      rw [hv] at h
      cases vr with
      | false =>
        simp only [Bool.not_false, if_true] at h
        exact ih picks.tail acc ws rest hnd h
      | true =>
        simp only [Bool.not_true, if_false] at h
        by_cases hc : acc.contains (pool.getD (picks.headD 0 % pool.length) 0) = true
        · rw [hnm] at h
          simp only [Bool.true_and, hc, if_true] at h
          exact ih picks.tail acc ws rest hnd h
        · rw [hnm] at h
          simp only [Bool.true_and, hc, if_false] at h
          refine ih picks.tail _ ws rest ?_ h
          have hmem : pool.getD (picks.headD 0 % pool.length) 0 ∉ acc := by
            intro hm
            exact hc (List.elem_iff.mpr hm)
          have hdisj : acc.Disjoint [pool.getD (picks.headD 0 % pool.length) 0] := by
            intro x hx hxw
            rw [List.mem_singleton] at hxw
            subst hxw
            exact hmem hx
          exact hnd.append (List.nodup_singleton _) hdisj

/-! ## C1 -/

/-- C1: `pick_winners` with an empty candidate pool returns the empty list;
with a nonempty pool it always performs exactly `amount_of_winners` draws
(the pick stream advances by exactly that much) and returns at most
`amount_of_winners` winners; when every drawn candidate passes re-validation
and the exclude-duplicate-winners flag is unset it returns exactly
`amount_of_winners` winners (repeats possible); with the flag set the
winners are pairwise distinct; and rejected draws are discarded without
being retried, so fewer than the requested number of winners is possible
(concrete final conjunct). -/
theorem pick_winners_spec :
    (∀ (st : GMeta) (v : Int → Except PyExc Bool) (picks : List Nat),
        st.entrants = [] → pick_winners st v none picks = .ok ([], picks))
    ∧
    (∀ (st : GMeta) (v : Int → Except PyExc Bool) (l : List Int)
        (picks : List Nat) (a : Int) (ws : List Int) (rest : List Nat),
        l ≠ [] → st.amount_of_winners = some a →
        pick_winners st v (some l) picks = .ok (ws, rest) →
        ws.length ≤ a.toNat ∧ rest = picks.drop a.toNat)
    ∧
    (∀ (st : GMeta) (v : Int → Except PyExc Bool) (l : List Int)
        (picks : List Nat) (a : Int) (f : GiveawayFlags),
        l ≠ [] → st.amount_of_winners = some a → st.flags = some f →
        f.no_multiple_winners = false → (∀ x ∈ l, v x = .ok true) →
        ∃ ws, pick_winners st v (some l) picks = .ok (ws, picks.drop a.toNat) ∧
          ws.length = a.toNat)
    ∧
    (∀ (st : GMeta) (v : Int → Except PyExc Bool) (arg : Option (List Int))
        (picks : List Nat) (f : GiveawayFlags) (ws : List Int)
        (rest : List Nat),
        st.flags = some f → f.no_multiple_winners = true →
        pick_winners st v arg picks = .ok (ws, rest) → ws.Nodup)
    ∧
    (pick_winners
        { message_id := 1, channel_id := 1, guild_id := 1, prize := none,
          requirements := none, flags := some {}, emoji := none,
          amount_of_winners := some 2, entrants := [], winners := [],
          host := none, starts_at := some 0, ends_at := 10 }
        (fun w => .ok (decide (w = 2))) (some [1, 2]) [0, 1] = .ok ([2], [])) := by
  refine ⟨?_, ?_, ?_, ?_, ?_⟩
  · intro st v picks h
    simp [pick_winners, h]
  · intro st v l picks a ws rest hl ha h
    cases l with
    | nil => exact absurd rfl hl
    | cons x xs =>
      simp only [pick_winners, List.isEmpty_cons, if_false, ha] at h
      have := pickLoop_len_drop v st.flags (x :: xs) a.toNat picks [] ws rest h
      simpa using this
  · intro st v l picks a f hl ha hf hnm hall
    cases l with
    | nil => exact absurd rfl hl
    | cons x xs =>
      simp only [pick_winners, List.isEmpty_cons, if_false, ha, hf]
      obtain ⟨ws, h1, h2⟩ := pickLoop_all_ok v f (x :: xs) (by simp) hall hnm a.toNat picks []
      exact ⟨ws, h1, by simpa using h2⟩
  · intro st v arg picks f ws rest hf hnm h
    simp only [pick_winners] at h
    set pool := (match arg with
      | none => st.entrants
      | some [] => st.entrants
      | some l => l) with hpool
    by_cases hpe : pool.isEmpty
    · rw [if_pos hpe] at h
      simp only [Except.ok.injEq, Prod.mk.injEq] at h
      obtain ⟨h1, _⟩ := h
      simp [← h1]
    · rw [if_neg hpe] at h
      cases ha : st.amount_of_winners with
      | none => rw [ha] at h; simp at h
      | some a =>
        rw [ha, hf] at h
        exact pickLoop_nodup v f pool hnm a.toNat picks [] ws rest (by simp) h
  · rfl

/-- Witness for C1: applying the empty-pool conjunct at a concrete record. -/
theorem pick_winners_spec_witness :
    pick_winners
      { message_id := 1, channel_id := 2, guild_id := 3, prize := none,
        requirements := none, flags := none, emoji := none,
        amount_of_winners := some 1, entrants := [], winners := [],
        host := none, starts_at := some 0, ends_at := 10 }
      (fun _ => .ok true) none [3, 4] = .ok ([], [3, 4]) :=
  pick_winners_spec.1 _ _ _ rfl

/-! ## C2 -/

/-- C2 (divergence on the `start` half): on an already-ended event (`now =
20 > ends_at = 10`), `start` raises `AttributeError` — evaluating
`self.time_to_end` inside the `GiveawayAlreadyEnded` message fails because
no such attribute exists on the class — instead of the claimed
`AlreadyEndedError`, though the state is indeed unchanged; the `end` half of
the claim holds: on an unstarted event (`now = 50 ≤ starts_at = 100`),
`end` raises `GiveawayNotStarted` with the state unchanged. -/
theorem start_end_lifecycle_bug :
    (start
        { message_id := 1, channel_id := 2, guild_id := 3, prize := none,
          requirements := none, flags := some {}, emoji := none,
          amount_of_winners := some 1, entrants := [], winners := [],
          host := none, starts_at := some 0, ends_at := 10 }
        20 ⟨true, 99⟩ =
      ({ message_id := 1, channel_id := 2, guild_id := 3, prize := none,
         requirements := none, flags := some {}, emoji := none,
         amount_of_winners := some 1, entrants := [], winners := [],
         host := none, starts_at := some 0, ends_at := 10 },
       .error (.attributeError "time_to_end")))
    ∧
    (endG
        { message_id := 1, channel_id := 2, guild_id := 3, prize := none,
          requirements := none, flags := some {}, emoji := none,
          amount_of_winners := some 1, entrants := [5], winners := [],
          host := none, starts_at := some 100, ends_at := 200 }
        50 none ⟨true, true, [5], fun _ => .ok true, []⟩ =
      ({ message_id := 1, channel_id := 2, guild_id := 3, prize := none,
         requirements := none, flags := some {}, emoji := none,
         amount_of_winners := some 1, entrants := [5], winners := [],
         host := none, starts_at := some 100, ends_at := 200 },
       .error (.giveawayNotStarted "The Giveaway (1) has not started yet"))) :=
  ⟨rfl, rfl⟩

/-! ## C3 -/

/-- C3 (counterexample): construction never compares `ends_at` with
`starts_at`: a record with `ends_at = 5` strictly before `starts_at = 10`
is produced without any failure. -/
theorem ends_after_starts_counterexample :
    metaInit dtTruthy id 0
      { message_id := .val 1, guild_id := .val 2, channel_id := .val 3,
        ends_at := .val 5, bot := .val (), starts_at := .val 10 } =
      .ok { message_id := 1, channel_id := 3, guild_id := 2,
            prize := some "Giveaway prize", requirements := none,
            flags := none, emoji := some ":tada:", amount_of_winners := some 1,
            entrants := [], winners := [], host := none, starts_at := some 10,
            ends_at := 5 }
    ∧ (5 : Int) ≤ 10 :=
  ⟨rfl, by norm_num⟩

/-- C3 (amended): construction validates only the presence (truthiness) of
the required fields; for any `starts_at` and `ends_at` whatsoever —
including `ends_at ≤ starts_at` — construction succeeds and the record
carries both values verbatim. -/
theorem construction_skips_time_order (mid gid cid s e now : Int)
    (hm : mid ≠ 0) (hg : gid ≠ 0) (hc : cid ≠ 0) :
    metaInit dtTruthy id now
      { message_id := .val mid, guild_id := .val gid, channel_id := .val cid,
        ends_at := .val e, bot := .val (), starts_at := .val s } =
      .ok { message_id := mid, channel_id := cid, guild_id := gid,
            prize := some "Giveaway prize", requirements := none,
            flags := none, emoji := some ":tada:", amount_of_winners := some 1,
            entrants := [], winners := [], host := none, starts_at := some s,
            ends_at := e } := by
  simp [metaInit, check_kwargs, checkOne, kwGet, hm, hg, hc, dtTruthy]

/-- Witness for C3's amended theorem at a concrete reversed schedule. -/
theorem construction_skips_time_order_witness :
    metaInit dtTruthy id 0
      { message_id := .val 4, guild_id := .val 5, channel_id := .val 6,
        ends_at := .val 1, bot := .val (), starts_at := .val 9 } =
      .ok { message_id := 4, channel_id := 6, guild_id := 5,
            prize := some "Giveaway prize", requirements := none,
            flags := none, emoji := some ":tada:", amount_of_winners := some 1,
            entrants := [], winners := [], host := none, starts_at := some 9,
            ends_at := 1 } :=
  construction_skips_time_order 4 5 6 9 1 0 (by norm_num) (by norm_num)
    (by norm_num)

/-! ## C5 -/

/-- C5 (divergence): a second `add_entrant` call for an already-entered,
eligible member leaves the entrant set unchanged (set add is idempotent)
but returns `True` — a fresh success — not the already-entered `False`
signal: the guard `member.id in self.entrants` tests the integer id against
the member-object list of the `entrants` property and never fires. The
rejection half of the claim holds: a failed eligibility check returns the
statement without mutating the set (second conjunct). -/
theorem add_entrant_duplicate_returns_true :
    (add_entrant (fun i => some ⟨i, []⟩)
        { message_id := 1, channel_id := 2, guild_id := 3, prize := none,
          requirements := some {}, flags := some {}, emoji := none,
          amount_of_winners := some 1, entrants := [5], winners := [],
          host := none, starts_at := some 0, ends_at := 10 }
        (.ok (true, "")) ⟨5, []⟩ =
      ({ message_id := 1, channel_id := 2, guild_id := 3, prize := none,
         requirements := some {}, flags := some {}, emoji := none,
         amount_of_winners := some 1, entrants := [5], winners := [],
         host := none, starts_at := some 0, ends_at := 10 },
       .ok .retTrue))
    ∧
    (add_entrant (fun i => some ⟨i, []⟩)
        { message_id := 1, channel_id := 2, guild_id := 3, prize := none,
          requirements := some {}, flags := some {}, emoji := none,
          amount_of_winners := some 1, entrants := [5], winners := [],
          host := none, starts_at := some 0, ends_at := 10 }
        (.ok (false, "rejected")) ⟨6, []⟩ =
      ({ message_id := 1, channel_id := 2, guild_id := 3, prize := none,
         requirements := some {}, flags := some {}, emoji := none,
         amount_of_winners := some 1, entrants := [5], winners := [],
         host := none, starts_at := some 0, ends_at := 10 },
       .ok (.statement "rejected"))) :=
  ⟨rfl, rfl⟩

/-! ## C6 -/

/-- C6 (counterexample): constructing through `Giveaway.__init__` (import
clock 7, construction clock 50) with `prize`, `amount_of_winners`, `emoji`
and `starts_at` omitted yields a record whose `prize` is `None` (not the
placeholder), `amount_of_winners` is `None` (not 1), `emoji` is `None` (not
the celebration symbol) and `starts_at` is the import-time instant 7, not
the construction-time 50: the subclass forwards omitted parameters as
present `None` keys, defeating the superclass defaults. -/
theorem giveaway_defaults_counterexample :
    giveawayInit 7 50
      { bot := some (), message_id := some 1, channel_id := some 3,
        guild_id := some 2, ends_at := some 100, flags := some {},
        requirements := some {} } =
      .ok { message_id := 1, channel_id := 3, guild_id := 2, prize := none,
            requirements := some {}, flags := some {}, emoji := none,
            amount_of_winners := none, entrants := [], winners := [],
            host := none, starts_at := some 7, ends_at := 100 }
    ∧ (none : Option String) ≠ some "Giveaway prize"
    ∧ (none : Option Int) ≠ some 1
    ∧ (none : Option String) ≠ some ":tada:"
    ∧ (some 7 : Option Int) ≠ some 50 :=
  ⟨rfl, by simp, by simp, by simp, by simp⟩

/-- C6 (amended): the documented defaults hold exactly for direct
`GiveawayMeta` construction with the optional keys absent (`prize`
placeholder, `amount_of_winners` 1, `emoji` `:tada:`, empty entrants and
winners, `starts_at` the construction-time clock); through the `Giveaway`
subclass the omitted optional parameters arrive as `None`, so the record
carries `None` for prize, amount and emoji, entrants and winners still
default empty, and `starts_at` defaults to the class-definition-time clock
instead of the construction-time one. -/
theorem construction_defaults_amended :
    (∀ (mid gid cid e now : Int), mid ≠ 0 → gid ≠ 0 → cid ≠ 0 →
      metaInit dtTruthy id now
        { message_id := .val mid, guild_id := .val gid,
          channel_id := .val cid, ends_at := .val e, bot := .val () } =
        .ok { message_id := mid, channel_id := cid, guild_id := gid,
              prize := some "Giveaway prize", requirements := none,
              flags := none, emoji := some ":tada:",
              amount_of_winners := some 1, entrants := [], winners := [],
              host := none, starts_at := some now, ends_at := e })
    ∧
    (∀ (mid gid cid e importTime now : Int) (rq : Requirements)
        (fl : GiveawayFlags), mid ≠ 0 → gid ≠ 0 → cid ≠ 0 →
      giveawayInit importTime now
        { bot := some (), message_id := some mid, channel_id := some cid,
          guild_id := some gid, ends_at := some e, flags := some fl,
          requirements := some rq } =
        .ok { message_id := mid, channel_id := cid, guild_id := gid,
              prize := none, requirements := some rq, flags := some fl,
              emoji := none, amount_of_winners := none, entrants := [],
              winners := [], host := none, starts_at := some importTime,
              ends_at := e }) := by
  constructor
  · intro mid gid cid e now hm hg hc
    simp [metaInit, check_kwargs, checkOne, kwGet, hm, hg, hc, dtTruthy]
  · intro mid gid cid e importTime now rq fl hm hg hc
    simp only [giveawayInit, toKw, metaInit, check_kwargs, checkOne, kwGet,
      dtTruthy, hm, hg, hc]
    by_cases hmc : fl.message_count = 0 <;>
      simp [hmc, hm, hg, hc, checkOne, kwGet]

/-- Witness for C6's amended theorem: the superclass defaults at a concrete
construction. -/
theorem construction_defaults_amended_witness :
    metaInit dtTruthy id 42
      { message_id := .val 1, guild_id := .val 2, channel_id := .val 3,
        ends_at := .val 100, bot := .val () } =
      .ok { message_id := 1, channel_id := 3, guild_id := 2,
            prize := some "Giveaway prize", requirements := none,
            flags := none, emoji := some ":tada:", amount_of_winners := some 1,
            entrants := [], winners := [], host := none, starts_at := some 42,
            ends_at := 100 } :=
  construction_defaults_amended.1 1 2 3 100 42 (by norm_num) (by norm_num)
    (by norm_num)

/-! ## C7 -/

/-- C7 (counterexample): with all four spec-named fields (message id, guild
id, channel id, ends_at) present and truthy but the `bot` handle absent,
construction still fails: `check_kwargs` also requires `bot`, so the claim
that exactly those four fields are required — and that construction cannot
fail for a missing field once they are present — is false. -/
theorem check_kwargs_bot_counterexample :
    check_kwargs dtTruthy
      { message_id := .val 1, guild_id := .val 2, channel_id := .val 3,
        ends_at := .val 5, bot := .absent } =
      (.error (.giveawayError "No bot object provided.") :
        Except PyExc (Int × Int × Int × Int)) :=
  rfl

/-- C7 (amended): construction requires five fields — message id, guild id,
channel id, ends_at *and* the bot handle; each check fires when its key is
absent, `None` or falsy, raising a `GiveawayError` naming that field, in
the order message, guild, channel, ends_at, bot; when all five are present
and truthy, `check_kwargs` succeeds and returns the four values. -/
theorem check_kwargs_amended {ε : Type} (t : ε → Bool) (kw : GKwargs ε) :
    (checkOne (fun n => n ≠ 0) kw.message_id = none →
      check_kwargs t kw = .error (.giveawayError "No message ID provided."))
    ∧
    (∀ mid, checkOne (fun n => n ≠ 0) kw.message_id = some mid →
      checkOne (fun n => n ≠ 0) kw.guild_id = none →
      check_kwargs t kw = .error (.giveawayError "No guild ID provided."))
    ∧
    (∀ mid gid, checkOne (fun n => n ≠ 0) kw.message_id = some mid →
      checkOne (fun n => n ≠ 0) kw.guild_id = some gid →
      checkOne (fun n => n ≠ 0) kw.channel_id = none →
      check_kwargs t kw = .error (.giveawayError "No channel ID provided."))
    ∧
    (∀ mid gid cid, checkOne (fun n => n ≠ 0) kw.message_id = some mid →
      checkOne (fun n => n ≠ 0) kw.guild_id = some gid →
      checkOne (fun n => n ≠ 0) kw.channel_id = some cid →
      checkOne t kw.ends_at = none →
      check_kwargs t kw =
        .error (.giveawayError "No ends_at provided for the giveaway."))
    ∧
    (∀ mid gid cid e, checkOne (fun n => n ≠ 0) kw.message_id = some mid →
      checkOne (fun n => n ≠ 0) kw.guild_id = some gid →
      checkOne (fun n => n ≠ 0) kw.channel_id = some cid →
      checkOne t kw.ends_at = some e →
      checkOne (fun _ => true) kw.bot = none →
      check_kwargs t kw = .error (.giveawayError "No bot object provided."))
    ∧
    (∀ mid gid cid e b, checkOne (fun n => n ≠ 0) kw.message_id = some mid →
      checkOne (fun n => n ≠ 0) kw.guild_id = some gid →
      checkOne (fun n => n ≠ 0) kw.channel_id = some cid →
      checkOne t kw.ends_at = some e →
      checkOne (fun _ => true) kw.bot = some b →
      check_kwargs t kw = .ok (mid, gid, cid, e)) := by
  refine ⟨?_, ?_, ?_, ?_, ?_, ?_⟩
  · intro h1
    simp only [check_kwargs, h1]
  · intro mid h1 h2
    simp only [check_kwargs, h1, h2]
  · intro mid gid h1 h2 h3
    simp only [check_kwargs, h1, h2, h3]
  · intro mid gid cid h1 h2 h3 h4
    simp only [check_kwargs, h1, h2, h3, h4]
  · intro mid gid cid e h1 h2 h3 h4 h5
    simp only [check_kwargs, h1, h2, h3, h4, h5]
  · intro mid gid cid e b h1 h2 h3 h4 h5
    simp only [check_kwargs, h1, h2, h3, h4, h5]

/-- Witness for C7's amended theorem: all five fields present and truthy at
a concrete mapping. -/
theorem check_kwargs_amended_witness :
    check_kwargs dtTruthy
      { message_id := .val 1, guild_id := .val 2, channel_id := .val 3,
        ends_at := .val 5, bot := .val () } =
      (.ok (1, 2, 3, 5) : Except PyExc (Int × Int × Int × Int)) :=
  (check_kwargs_amended dtTruthy _).2.2.2.2.2 1 2 3 5 () rfl rfl rfl rfl rfl

/-! ## C4 -/

/-- C4 (counterexample): a record with `ends_at` at the epoch instant (0) is
constructible, but reconstructing it from its own serialized mapping (bot
re-supplied) fails: the serialized `ends_at` timestamp 0 is falsy, so
`from_json`'s `check_kwargs` raises the missing-ends_at `GiveawayError`
instead of returning an equal record. -/
theorem roundtrip_epoch_counterexample :
    metaInit dtTruthy id 50
      { message_id := .val 1, guild_id := .val 2, channel_id := .val 3,
        ends_at := .val 0, bot := .val () } =
      .ok { message_id := 1, channel_id := 3, guild_id := 2,
            prize := some "Giveaway prize", requirements := none,
            flags := none, emoji := some ":tada:", amount_of_winners := some 1,
            entrants := [], winners := [], host := none, starts_at := some 50,
            ends_at := 0 }
    ∧ (GMeta.json
        { message_id := 1, channel_id := 3, guild_id := 2,
          prize := some "Giveaway prize", requirements := none, flags := none,
          emoji := some ":tada:", amount_of_winners := some 1, entrants := [],
          winners := [], host := none, starts_at := some 50,
          ends_at := 0 }).bind
        (fun j => from_json 99 {j with bot := .val ()}) =
      .error (.giveawayError "No ends_at provided for the giveaway.") :=
  ⟨rfl, rfl⟩

/-- C4 (amended): serialization round-trips — `from_json` on the record's
serialized mapping with the bot handle re-supplied returns a record equal
in every field — for every record whose ids are truthy (guaranteed at
construction), whose `ends_at` is not the epoch instant (serialized
timestamp 0 is falsy and rejected on reconstruction), whose `starts_at` is
an actual instant, and whose `requirements` and `flags` objects are present
(their own modules are outside `src/`; their serialization is modelled as
round-trip stable per the spec; a `None` requirements or flags field would
come back as a present empty object rather than `None`). -/
theorem roundtrip_amended (st : GMeta) (now s : Int) (rq : Requirements)
    (fl : GiveawayFlags)
    (hm : st.message_id ≠ 0) (hg : st.guild_id ≠ 0) (hc : st.channel_id ≠ 0)
    (he : st.ends_at ≠ 0) (hs : st.starts_at = some s)
    (hr : st.requirements = some rq) (hf : st.flags = some fl)
    (hn : st.entrants.Nodup) :
    (GMeta.json st).bind (fun j => from_json now {j with bot := .val ()}) =
      .ok st := by
  obtain ⟨mid, cid, gid, pz, rqf, flf, em, aw, en, wn, ho, sa, ea⟩ := st
  simp only at hm hg hc he hs hr hf hn
  subst hs; subst hr; subst hf
  simp only [GMeta.json, Except.bind, from_json, check_kwargs, checkOne, hm,
    hg, hc, he, ne_eq, not_false_eq_true, decide_eq_true_eq, if_true,
    dtTruthy, kwGet_toKw, kwGet_val, metaInit, reqFromJson, flagsFromJson,
    Option.getD_some, List.dedup_eq_self.mpr hn, id]

/-- Witness for C4's amended round-trip at a concrete record. -/
theorem roundtrip_amended_witness :
    (GMeta.json
        { message_id := 1, channel_id := 3, guild_id := 2,
          prize := some "car", requirements := some {}, flags := some {},
          emoji := some ":tada:", amount_of_winners := some 2,
          entrants := [4, 5], winners := [4], host := some 9,
          starts_at := some 10, ends_at := 100 }).bind
      (fun j => from_json 77 {j with bot := .val ()}) =
      .ok { message_id := 1, channel_id := 3, guild_id := 2,
            prize := some "car", requirements := some {}, flags := some {},
            emoji := some ":tada:", amount_of_winners := some 2,
            entrants := [4, 5], winners := [4], host := some 9,
            starts_at := some 10, ends_at := 100 } :=
  roundtrip_amended _ 77 10 {} {} (by norm_num) (by norm_num) (by norm_num)
    (by norm_num) rfl rfl rfl (by decide)

/-! ## C8 -/

theorem rerollLoop_len (v : Int → Except PyExc Bool) (count : Nat) :
    ∀ (fuel : Nat) (pool : List Int) (picks : List Nat) (acc ws : List Int),
      acc.length < count →
      rerollLoop v count fuel pool picks acc = .ok ws →
      ws.length ≤ count ∧ ws.length ≤ acc.length + fuel := by
  intro fuel
  induction fuel with
  | zero =>
    intro pool picks acc ws hlt h
    simp only [rerollLoop, Except.ok.injEq] at h
    subst h
    exact ⟨Nat.le_of_lt hlt, by omega⟩
  | succ fuel ih =>
    intro pool picks acc ws hlt h
    rw [rerollLoop.eq_def] at h
    simp only at h
    by_cases hpe : pool.isEmpty
    · rw [if_pos hpe] at h
      simp at h
    · rw [if_neg hpe] at h
      cases hv : v (pool.getD (picks.headD 0 % pool.length) 0) with
      | error e => rw [hv] at h; simp at h
      | ok vr =>
        rw [hv] at h
        cases vr with
        | false =>
          simp only [Bool.not_false, if_true] at h
          obtain ⟨h1, h2⟩ := ih _ picks.tail acc ws hlt h
          exact ⟨h1, by omega⟩
        | true =>
          simp only [Bool.not_true, Bool.false_eq_true, if_false] at h
          by_cases heq :
              (acc ++ [pool.getD (picks.headD 0 % pool.length) 0]).length = count
          · rw [if_pos heq] at h
            simp only [Except.ok.injEq] at h
            subst h
            rw [List.length_append, List.length_singleton] at heq ⊢
            omega
          · rw [if_neg heq] at h
            have hlt' :
                (acc ++ [pool.getD (picks.headD 0 % pool.length) 0]).length <
                  count := by
              rw [List.length_append, List.length_singleton] at heq ⊢
              omega
            obtain ⟨h1, h2⟩ := ih _ picks.tail _ ws hlt' h
            rw [List.length_append, List.length_singleton] at h2
            exact ⟨h1, by omega⟩

/-- C8: whenever the draw loop of `reroll` completes, `winners` is set to a
list bounded both by the requested count and by the size of the original
entrant set (the loop iterates `for _ in self.entrants`); with entrants
`{7}` and `count = 3` exactly one winner is returned, not an error; drawing
stops early once `count` winners accumulate (entrants `{1,2,3}`, `count =
1` — plenty of fuel left — yields exactly one winner); and an empty
multiplier-expanded pool yields the not-enough-entrants reply with no error
and no mutation. -/
theorem reroll_bounds :
    (∀ (st : GMeta) (env : RerollEnv) (c : Int) (ws : List Int),
        1 ≤ c → env.msgFound = true →
        (env.expand st.entrants).isEmpty = false →
        rerollLoop env.verify c.toNat st.entrants.length
          (env.expand st.entrants) env.picks [] = .ok ws →
        reroll st env (some c) =
          ({st with winners := ws},
           .ok (if ws.isEmpty then .notEnoughQualified else .announced ws)) ∧
        ws.length ≤ c.toNat ∧ ws.length ≤ st.entrants.length)
    ∧
    (reroll
        { message_id := 1, channel_id := 2, guild_id := 3, prize := none,
          requirements := some {}, flags := some {}, emoji := none,
          amount_of_winners := some 1, entrants := [7], winners := [],
          host := none, starts_at := some 0, ends_at := 10 }
        ⟨true, id, fun _ => .ok true, [0]⟩ (some 3) =
      ({ message_id := 1, channel_id := 2, guild_id := 3, prize := none,
         requirements := some {}, flags := some {}, emoji := none,
         amount_of_winners := some 1, entrants := [7], winners := [7],
         host := none, starts_at := some 0, ends_at := 10 },
       .ok (.announced [7])))
    ∧
    (∀ (st : GMeta) (env : RerollEnv) (c? : Option Int),
        env.msgFound = true → env.expand st.entrants = [] →
        reroll st env c? = (st, .ok .notEnough))
    ∧
    (reroll
        { message_id := 1, channel_id := 2, guild_id := 3, prize := none,
          requirements := some {}, flags := some {}, emoji := none,
          amount_of_winners := some 1, entrants := [1, 2, 3], winners := [],
          host := none, starts_at := some 0, ends_at := 10 }
        ⟨true, id, fun _ => .ok true, [0, 0, 0]⟩ (some 1) =
      ({ message_id := 1, channel_id := 2, guild_id := 3, prize := none,
         requirements := some {}, flags := some {}, emoji := none,
         amount_of_winners := some 1, entrants := [1, 2, 3], winners := [1],
         host := none, starts_at := some 0, ends_at := 10 },
       .ok (.announced [1]))) := by
  refine ⟨?_, rfl, ?_, rfl⟩
  · intro st env c ws hc hm hpe hloop
    have hcz : ¬ c = 0 := by omega
    have hcount : 0 < c.toNat := by omega
    constructor
    · simp only [reroll, hm, Bool.not_true, if_false, Bool.false_eq_true,
        hcz, hpe, hloop]
    · have := rerollLoop_len env.verify c.toNat st.entrants.length
        (env.expand st.entrants) env.picks [] ws (by simpa using hcount) hloop
      simpa using this
  · intro st env c? hm hemp
    simp only [reroll, hm, Bool.not_true, if_false, Bool.false_eq_true, hemp,
      List.isEmpty_nil, if_true]

/-- Witness for C8: the empty-expanded-pool conjunct at a concrete ended
record whose multiplier expansion returns nothing. -/
theorem reroll_bounds_witness :
    reroll
      { message_id := 1, channel_id := 2, guild_id := 3, prize := none,
        requirements := some {}, flags := some {}, emoji := none,
        amount_of_winners := some 1, entrants := [], winners := [9],
        host := none, starts_at := some 0, ends_at := 10 }
      ⟨true, fun _ => [], fun _ => .ok true, []⟩ (some 2) =
      ({ message_id := 1, channel_id := 2, guild_id := 3, prize := none,
         requirements := some {}, flags := some {}, emoji := none,
         amount_of_winners := some 1, entrants := [], winners := [9],
         host := none, starts_at := some 0, ends_at := 10 },
       .ok .notEnough) :=
  reroll_bounds.2.2.1 _ _ _ rfl rfl

/-! ## C9 -/

theorem amariWeeklyCheck_error_eq (req : Requirements) (ex : PyExc)
    (mc : Int) :
    amariWeeklyCheck req (.error ex) mc =
      amariWeeklyCheck req (.ok (some { level := none, weeklyExp := some 0 }))
        mc := by
  unfold amariWeeklyCheck
  cases req.amari_weekly with
  | none => rfl
  | some wv =>
    by_cases hw : wv = 0 <;> simp [hw]

theorem amariLevelCheck_weekly_error_eq (req : Requirements)
    (lCall : Except PyExc (Option AmariUser)) (ex : PyExc) (mc : Int) :
    amariLevelCheck req lCall (.error ex) mc =
      amariLevelCheck req lCall
        (.ok (some { level := none, weeklyExp := some 0 })) mc := by
  unfold amariLevelCheck
  cases req.amari_level with
  | none => exact amariWeeklyCheck_error_eq req ex mc
  | some lv =>
    by_cases hl : lv = 0
    · simpa [hl] using amariWeeklyCheck_error_eq req ex mc
    · cases lCall with
      | error e => simp [hl]
      | ok u =>
        by_cases hlt : (u.getD {}).level.getD 0 < lv <;>
          simp [hl, hlt, amariWeeklyCheck_error_eq req ex mc]

theorem verifyRequirements_weekly_error_eq (req : Requirements)
    (lCall : Except PyExc (Option AmariUser)) (ex : PyExc) (mc : Int)
    (roles : List Int) :
    verifyRequirements req lCall (.error ex) mc roles =
      verifyRequirements req lCall
        (.ok (some { level := none, weeklyExp := some 0 })) mc roles := by
  simp only [verifyRequirements, amariLevelCheck_weekly_error_eq req lCall ex mc]

/-- C9: a failure of the reputation-service lookup for the primary
(`amari_level`) threshold propagates out of `verify_entry` (first
conjunct), while a failure of the lookup for the weekly (`amari_weekly`)
threshold is swallowed: for every input whatsoever, `verify_entry` with a
failing weekly lookup behaves exactly as with a successful lookup reporting
weekly score 0 (second conjunct). -/
theorem amari_error_handling :
    (∀ (fl : GiveawayFlags) (host : Option Int) (lv : Int) (aw ms : Option Int)
        (ex : PyExc) (wCall : Except PyExc (Option AmariUser)) (mc : Int)
        (m : Member),
        fl.no_donor = false → lv ≠ 0 →
        verify_entry fl host
          { null := false, bypass := [], blacklist := [], required := [],
            amari_level := some lv, amari_weekly := aw, messages := ms }
          (.error ex) wCall mc m = .error ex)
    ∧
    (∀ (fl : GiveawayFlags) (host : Option Int) (req : Requirements)
        (lCall : Except PyExc (Option AmariUser)) (ex : PyExc) (mc : Int)
        (m : Member),
        verify_entry fl host req lCall (.error ex) mc m =
          verify_entry fl host req lCall
            (.ok (some { level := none, weeklyExp := some 0 })) mc m) := by
  constructor
  · intro fl host lv aw ms ex wCall mc m hnd hlv
    simp [verify_entry, verifyRequirements, amariLevelCheck, hnd, hlv]
  · intro fl host req lCall ex mc m
    simp only [verify_entry,
      verifyRequirements_weekly_error_eq req lCall ex mc m.roles]

/-- Witness for C9: the propagation conjunct at a concrete failing lookup. -/
theorem amari_error_handling_witness :
    verify_entry {} none
      { null := false, bypass := [], blacklist := [], required := [],
        amari_level := some 5, amari_weekly := some 3, messages := none }
      (.error (.giveawayError "amari down")) (.ok none) 0 ⟨1, []⟩ =
      .error (.giveawayError "amari down") :=
  amari_error_handling.1 {} none 5 (some 3) none _ (.ok none) 0 ⟨1, []⟩ rfl
    (by norm_num)

/-! ## C10 -/

/-- C10: when `reroll` cannot resolve the published message, or the
multiplier-expanded entrant pool is empty, it returns before any mutation —
the record is exactly what it was; and on every path whatsoever, every
field other than `winners` is unchanged, so `winners` is the only field
`reroll` can ever reassign, and only on the path where drawing runs. -/
theorem reroll_no_mutation_on_early_return :
    (∀ (st : GMeta) (env : RerollEnv) (c? : Option Int),
        env.msgFound = false → reroll st env c? = (st, .ok .noMessage))
    ∧
    (∀ (st : GMeta) (env : RerollEnv) (c? : Option Int),
        env.msgFound = true → env.expand st.entrants = [] →
        reroll st env c? = (st, .ok .notEnough))
    ∧
    (∀ (st : GMeta) (env : RerollEnv) (c? : Option Int) (st' : GMeta)
        (r : Except PyExc RerollMsg),
        reroll st env c? = (st', r) →
        st'.message_id = st.message_id ∧ st'.channel_id = st.channel_id ∧
        st'.guild_id = st.guild_id ∧ st'.prize = st.prize ∧
        st'.requirements = st.requirements ∧ st'.flags = st.flags ∧
        st'.emoji = st.emoji ∧
        st'.amount_of_winners = st.amount_of_winners ∧
        st'.entrants = st.entrants ∧ st'.host = st.host ∧
        st'.starts_at = st.starts_at ∧ st'.ends_at = st.ends_at) := by
  refine ⟨?_, ?_, ?_⟩
  · intro st env c? hm
    simp [reroll, hm]
  · intro st env c? hm hemp
    simp [reroll, hm, hemp]
  · intro st env c? st' r h
    cases hm : env.msgFound with
    | false =>
      simp only [reroll, hm, Bool.not_false, if_true, Prod.mk.injEq] at h
      obtain ⟨h1, _⟩ := h
      subst h1
      simp
    | true =>
      simp only [reroll, hm, Bool.not_true, Bool.false_eq_true, if_false] at h
      by_cases hpe : (env.expand st.entrants).isEmpty
      · rw [if_pos hpe] at h
        simp only [Prod.mk.injEq] at h
        obtain ⟨h1, _⟩ := h
        subst h1
        simp
      · rw [if_neg hpe] at h
        cases hl : rerollLoop env.verify
            (match c? with
              | none => (1 : Int)
              | some c => if c = 0 then 1 else c).toNat
            st.entrants.length (env.expand st.entrants) env.picks [] with
        | error e =>
          rw [hl] at h
          simp only [Prod.mk.injEq] at h
          obtain ⟨h1, _⟩ := h
          subst h1
          simp
        | ok ws =>
          rw [hl] at h
          simp only [Prod.mk.injEq] at h
          obtain ⟨h1, _⟩ := h
          subst h1
          simp

/-- Witness for C10: the unresolvable-message conjunct at a concrete
record. -/
theorem reroll_no_mutation_witness :
    reroll
      { message_id := 1, channel_id := 2, guild_id := 3, prize := none,
        requirements := some {}, flags := some {}, emoji := none,
        amount_of_winners := some 1, entrants := [4, 5], winners := [4],
        host := none, starts_at := some 0, ends_at := 10 }
      ⟨false, id, fun _ => .ok true, [0]⟩ (some 1) =
      ({ message_id := 1, channel_id := 2, guild_id := 3, prize := none,
         requirements := some {}, flags := some {}, emoji := none,
         amount_of_winners := some 1, entrants := [4, 5], winners := [4],
         host := none, starts_at := some 0, ends_at := 10 },
       .ok .noMessage) :=
  reroll_no_mutation_on_early_return.1 _ _ _ rfl

end CrayGiveaways
